import Mathlib

/-!
Shallow embedding of the real-time blockchain simulator of
`core/realtime_simulation.py` and of the SSE streaming generator of
`portfolio/sse.py` / `portfolio/api.py`, together with proofs of the
stated properties.

Python floats are modelled as exact rationals; the float sine function is
an uninterpreted parameter `msin : ℚ → ℚ` (its output feeds the cosmetic
wave factor only).  Every call to the `random` module is modelled as a
draw supplied by an oracle structure; range constraints promised by the
`random` API (`uniform`, `choice`) are recorded in a validity predicate.
Simulated time is the number of microseconds since the epoch (an integer),
mirroring `datetime`: `second` and `microsecond` are the corresponding
components.
-/

namespace Sim

/-- The four tracked chains, in the iteration order of the `self.chains`
dict (insertion order). -/
inductive ChainId where
  | ethereum
  | arbitrum
  | optimism
  | polygon
deriving DecidableEq, Repr

/-- Static per-chain configuration (one entry of `self.chains`). -/
structure ChainConfig where
  name : String
  color : String
  base_balance : ℚ
  volatility : ℚ
  trend : ℚ
deriving DecidableEq, Repr

/-- The `self.chains` dict of `BlockchainSimulator.__init__`. -/
def chains : ChainId → ChainConfig
  | .ethereum => { name := "Ethereum", color := "#627EEA", base_balance := 2500000,
                   volatility := 0.15, trend := 0.02 }
  | .arbitrum => { name := "Arbitrum", color := "#28A0F0", base_balance := 850000,
                   volatility := 0.20, trend := -0.01 }
  | .optimism => { name := "Optimism", color := "#FF0420", base_balance := 450000,
                   volatility := 0.25, trend := 0.05 }
  | .polygon  => { name := "Polygon", color := "#8247E5", base_balance := 1200000,
                   volatility := 0.18, trend := -0.03 }

/-- `list(self.chains.keys())`, in dict insertion order. -/
def chain_keys : List ChainId := [.ethereum, .arbitrum, .optimism, .polygon]

/-- `datetime.second` of a time given in microseconds since the epoch. -/
def time_second (t : ℤ) : ℤ := t / 1000000 % 60

/-- `datetime.microsecond` of a time given in microseconds since the epoch. -/
def time_microsecond (t : ℤ) : ℤ := t % 1000000

/-- `self.current_time.second + (self.current_time.microsecond / 1000000)`
(line 138 of `realtime_simulation.py`). -/
def seconds_elapsed_of (t : ℤ) : ℚ :=
  (time_second t : ℚ) + (time_microsecond t : ℚ) / 1000000

/-- One data point of `balance_history` / `volume_history`
(the dict built at lines 111-116). -/
structure DataPoint where
  timestamp : ℤ
  balance : ℚ
  volume : ℚ
  chain : ChainId
deriving DecidableEq, Repr

/-- One entry of `transaction_events` (the dict built at lines 211-218). -/
structure FraudEvent where
  timestamp : ℤ
  type : String
  chain : ChainId
  amount : ℚ
  suspicious_score : ℚ
  description : String
deriving DecidableEq, Repr

/-- Mutable state of `BlockchainSimulator` relevant to the tick update
(`current_time`, `simulation_speed`, the two history dicts and the
fraud-event list). -/
structure SimState where
  current_time : ℤ
  simulation_speed : ℤ
  balance_history : ChainId → List DataPoint
  volume_history : ChainId → List DataPoint
  transaction_events : List FraudEvent

/-- The freshly constructed simulator (`__init__`): empty histories,
empty event log, speed 1.  `t0` is the `datetime.now()` value. -/
def initState (t0 : ℤ) : SimState :=
  { current_time := t0
    simulation_speed := 1
    balance_history := fun _ => []
    volume_history := fun _ => []
    transaction_events := [] }

/-- Oracle for the random draws made for one chain during one tick:
`gauss` is the value returned by `random.gauss(0, volatility*0.02)`;
the booleans are the outcomes of the `random.random() < p` checks of
`_is_mixing_active` / `_is_bridge_active` / `_is_fraud_active`; the
remaining fields are the corresponding `random.uniform` draws. -/
structure ChainOracle where
  gauss : ℚ
  mixing_active : Bool
  bridge_active : Bool
  mixing_gain : ℚ
  bridge_loss : ℚ
  bridge_gain : ℚ
  vol_fraud_active : Bool
  vol_fraud_mult : ℚ
  vol_rand : ℚ
deriving DecidableEq, Repr

/-- Oracle for the draws of `_generate_fraud_event`: `type_index` and
`chain_index` select the results of the two `random.choice` calls,
`amount` and `score` are the two `random.uniform` draws. -/
structure EventOracle where
  type_index : ℕ
  chain_index : ℕ
  amount : ℚ
  score : ℚ
deriving DecidableEq, Repr

/-- Range guarantees of the `random` API for the event draws:
`random.choice` picks an element of its (5- resp. 4-element) list,
`random.uniform(a, b)` lands in `[a, b]`. -/
def EventOracle.Valid (o : EventOracle) : Prop :=
  o.type_index < 5 ∧ o.chain_index < 4 ∧
  10000 ≤ o.amount ∧ o.amount ≤ 500000 ∧
  7/10 ≤ o.score ∧ o.score ≤ 1

instance (o : EventOracle) : Decidable o.Valid := by
  unfold EventOracle.Valid; infer_instance

/-- Oracle for one whole tick: per-chain draws, the `random.random() < 0.1`
fraud-roll at line 128, and the event draws (consumed only when the roll
succeeds). -/
structure TickOracle where
  chain : ChainId → ChainOracle
  fraud_roll : Bool
  event : EventOracle

/-- Validity of a tick oracle: its event draws respect the `random` API. -/
def TickOracle.Valid (o : TickOracle) : Prop := o.event.Valid

/-- `_get_fraud_influence` (lines 170-184).  Each branch's
`random.uniform` draw is supplied by the oracle. -/
def get_fraud_influence (chain_id : ChainId) (o : ChainOracle) : ℚ :=
  if chain_id = .ethereum ∧ o.mixing_active then o.mixing_gain
  else if (chain_id = .arbitrum ∨ chain_id = .polygon) ∧ o.bridge_active then o.bridge_loss
  else if chain_id = .optimism ∧ o.bridge_active then o.bridge_gain
  else 1

/-- `_calculate_chain_balance` (lines 131-153).  `msin` models the float
sine; `o.gauss` is the `random.gauss(0, volatility*0.02)` draw, so the
`volatility` field acts only through it. -/
def calculate_chain_balance (msin : ℚ → ℚ) (t : ℤ) (config : ChainConfig)
    (chain_id : ChainId) (o : ChainOracle) : ℚ :=
  let base := config.base_balance
  let trend := config.trend
  let seconds_elapsed := seconds_elapsed_of t
  let wave := msin (seconds_elapsed * 0.1) * 0.05
  let trend_factor := 1 + trend * seconds_elapsed / 3600
  let random_factor := 1 + o.gauss
  let fraud_factor := get_fraud_influence chain_id o
  let balance := base * trend_factor * random_factor * fraud_factor * (1 + wave)
  max balance 0

/-- `_calculate_chain_volume` (lines 155-168). -/
def calculate_chain_volume (config : ChainConfig) (o : ChainOracle) : ℚ :=
  let base_volume := config.base_balance * 0.1
  let fraud_multiplier : ℚ := if o.vol_fraud_active then o.vol_fraud_mult else 1
  let random_factor := o.vol_rand
  base_volume * fraud_multiplier * random_factor / 24

/-- The five-element `event_types` list of `_generate_fraud_event`
(lines 200-206). -/
def event_types : List String :=
  ["large_transfer", "mixing_service", "bridge_transaction",
   "tumbler_activity", "multiple_small_transfers"]

/-- `_get_event_description` (lines 226-235): dict lookup with a default. -/
def get_event_description (event_type : String) : String :=
  if event_type = "large_transfer" then "Large transfer detected between flagged addresses"
  else if event_type = "mixing_service" then "Interaction with known mixing service"
  else if event_type = "bridge_transaction" then "Cross-chain bridge transaction"
  else if event_type = "tumbler_activity" then "Possible tumbler/privacy coin interaction"
  else if event_type = "multiple_small_transfers" then "Multiple small transfers (possible structuring)"
  else "Suspicious activity detected"

/-- The event dict built by `_generate_fraud_event` (lines 208-218), at
current time `t` and with draws `o`. -/
def generate_fraud_event (t : ℤ) (o : EventOracle) : FraudEvent :=
  let event_type := event_types.getD o.type_index ""
  { timestamp := t
    type := event_type
    chain := chain_keys.getD o.chain_index .ethereum
    amount := o.amount
    suspicious_score := o.score
    description := get_event_description event_type }

/-- Append `x` at the back; if the bound is now exceeded, `pop(0)` the
front element (the `append` + `if len > bound: pop(0)` pattern of lines
118-125 and 220-224). -/
def appendBounded (bound : ℕ) (l : List α) (x : α) : List α :=
  let l' := l ++ [x]
  if bound < l'.length then l'.tail else l'

/-- `_generate_tick_data` (lines 101-129): advance simulated time, append
one data point per chain to both histories (bound 200), and - when the
10% roll succeeds - append one fraud event (bound 50). -/
def generate_tick_data (msin : ℚ → ℚ) (o : TickOracle) (s : SimState) : SimState :=
  let t' := s.current_time + 1000000 * s.simulation_speed
  let point : ChainId → DataPoint := fun c =>
    { timestamp := t'
      balance := calculate_chain_balance msin t' (chains c) c (o.chain c)
      volume := calculate_chain_volume (chains c) (o.chain c)
      chain := c }
  { current_time := t'
    simulation_speed := s.simulation_speed
    balance_history := fun c => appendBounded 200 (s.balance_history c) (point c)
    volume_history := fun c => appendBounded 200 (s.volume_history c) (point c)
    transaction_events :=
      if o.fraud_roll then
        appendBounded 50 s.transaction_events (generate_fraud_event t' o.event)
      else s.transaction_events }

/-- One simulator step: some valid tick oracle drives `_generate_tick_data`. -/
def Step (msin : ℚ → ℚ) (s s' : SimState) : Prop :=
  ∃ o : TickOracle, o.Valid ∧ s' = generate_tick_data msin o s

/-- A state is reachable when it arises from a freshly constructed
simulator by some number of ticks. -/
def Reachable (msin : ℚ → ℚ) (s : SimState) : Prop :=
  ∃ t0 : ℤ, Relation.ReflTransGen (Step msin) (initState t0) s

/-! ## `get_current_data` (the snapshot reader, lines 237-300) -/

/-- The `{balance, volume}` projection of a stored point, and the shape of
the padding dicts `{'balance': base, 'volume': 0}` of lines 264-266. -/
structure BV where
  balance : ℚ
  volume : ℚ
deriving DecidableEq, Repr

/-- View of a stored data point through its `balance` / `volume` keys. -/
def bvOf (d : DataPoint) : BV := { balance := d.balance, volume := d.volume }

/-- Python `l[-n:]` for `n ≥ 1`: the most recent `n` elements. -/
def sliceLast (n : ℕ) (l : List α) : List α := l.drop (l.length - n)

/-- The `while len < num_points: insert(0, pad)` loops of lines 263-266:
pad at the front up to length `n`. -/
def padFront (n : ℕ) (pad : BV) (l : List BV) : List BV :=
  List.replicate (n - l.length) pad ++ l

/-- The `points_map.get(timeframe, 30)` lookup of lines 240-246. -/
def points_map (timeframe : String) : ℕ :=
  if timeframe = "1M" then 30
  else if timeframe = "5M" then 60
  else if timeframe = "30M" then 90
  else 30

/-- The label generation of lines 249-254.  `range(a, 0, -step)` is
written as a map over `List.range`. -/
def labels_for (timeframe : String) (num_points : ℕ) : List String :=
  if timeframe = "1M" then
    (List.range num_points).map (fun i => toString (num_points - i) ++ "s")
  else if timeframe = "5M" then
    ((List.range num_points).map (fun i => toString (num_points * 5 - 5 * i) ++ "s")).take num_points
  else
    ((List.range 30).map (fun i => toString (30 - i) ++ "m")).take num_points

/-- The per-chain `{'balances': ..., 'volume': ...}` block of lines
259-271: slice the most recent `num_points` samples, pad at the front
with `{'balance': base_balance, 'volume': 0}`, and extract the two
fields. -/
structure ChainSeries where
  balances : List ℚ
  volume : List ℚ
deriving DecidableEq, Repr

/-- Computation of one chain's entry of `multi_chain_data`. -/
def chain_series (s : SimState) (num_points : ℕ) (c : ChainId) : ChainSeries :=
  let pad : BV := { balance := (chains c).base_balance, volume := 0 }
  let balance_data := padFront num_points pad ((sliceLast num_points (s.balance_history c)).map bvOf)
  let volume_data := padFront num_points pad ((sliceLast num_points (s.volume_history c)).map bvOf)
  { balances := (sliceLast num_points balance_data).map BV.balance
    volume := (sliceLast num_points volume_data).map BV.volume }

/-- `balances[-1] if balances else 0`. -/
def last_or_zero (l : List ℚ) : ℚ := l.getLast?.getD 0

/-- `b[-2] if len(b) > 1 else b[-1] if b else 0` (line 280). -/
def second_last_or (l : List ℚ) : ℚ :=
  if 1 < l.length then l.getD (l.length - 2) 0 else last_or_zero l

/-- `total_balance` of lines 274-277. -/
def total_balance_of (s : SimState) (timeframe : String) : ℚ :=
  (chain_keys.map (fun c => last_or_zero (chain_series s (points_map timeframe) c).balances)).sum

/-- `previous_balance` of lines 279-282. -/
def previous_balance_of (s : SimState) (timeframe : String) : ℚ :=
  (chain_keys.map (fun c => second_last_or (chain_series s (points_map timeframe) c).balances)).sum

/-- `change_percent` of line 284 (the guarded conditional expression). -/
def change_percent_of (s : SimState) (timeframe : String) : ℚ :=
  let total_balance := total_balance_of s timeframe
  let previous_balance := previous_balance_of s timeframe
  if 0 < previous_balance then (total_balance - previous_balance) / previous_balance * 100 else 0

/-- Python division, raising `ZeroDivisionError` on a zero denominator. -/
def pyDiv (a b : ℚ) : Except String ℚ :=
  if b = 0 then .error "ZeroDivisionError" else .ok (a / b)

/-- `change_percent` of line 284 with the division modelled fallibly:
the division is evaluated only when `previous_balance > 0`. -/
def change_percent_checked (s : SimState) (timeframe : String) : Except String ℚ :=
  let total_balance := total_balance_of s timeframe
  let previous_balance := previous_balance_of s timeframe
  if 0 < previous_balance then
    (pyDiv (total_balance - previous_balance) previous_balance).map (fun q => q * 100)
  else .ok 0

/-- Two-digit zero padding for `strftime`. -/
def pad2 (n : ℤ) : String := if n < 10 then "0" ++ toString n else toString n

/-- `current_time.strftime("%H:%M:%S")` for a time in microseconds. -/
def strftime_hms (t : ℤ) : String :=
  pad2 (t / 1000000 / 3600 % 24) ++ ":" ++ pad2 (t / 1000000 / 60 % 60) ++ ":" ++
    pad2 (t / 1000000 % 60)

/-- The `summary` block of lines 291-297. -/
structure Summary where
  total_balance : ℚ
  change_percent : ℚ
  chains_tracked : ℕ
  fraud_events : ℕ
deriving DecidableEq, Repr

/-- The dict returned by `get_current_data` (lines 286-300). -/
structure Snapshot where
  success : Bool
  timeframe : String
  labels : List String
  multi_chain_data : ChainId → ChainSeries
  summary : Summary
  recent_events : List FraudEvent
  simulation_time : String

/-- `get_current_data` (lines 237-300). -/
def get_current_data (s : SimState) (timeframe : String) : Snapshot :=
  let num_points := points_map timeframe
  { success := true
    timeframe := timeframe
    labels := labels_for timeframe num_points
    multi_chain_data := fun c => chain_series s num_points c
    summary :=
      { total_balance := total_balance_of s timeframe
        change_percent := change_percent_of s timeframe
        chains_tracked := chain_keys.length
        fraud_events :=
          (s.transaction_events.filter
            (fun e => s.current_time - 24 * 3600 * 1000000 < e.timestamp)).length }
    recent_events := sliceLast 5 s.transaction_events
    simulation_time := strftime_hms s.current_time }

/-- `get_current_data` in state-passing form.  The method only reads the
simulator's fields; each Python slice (`[-n:]`) copies its list, and the
`insert(0, ...)` padding mutates only those copies, so the simulator
state the method leaves behind is the one it was given. -/
def get_current_data_st (s : SimState) (timeframe : String) : SimState × Snapshot :=
  (s, get_current_data s timeframe)

/-! ## The tick scheduler (lines 75-99)

`start_simulation` launches a background thread running
`_simulation_loop`; `stop_simulation` sets `running = False` and then
`thread.join()`s, returning only once the loop thread has terminated.
The interleaving of the loop thread with the caller of
`stop_simulation` is modelled as a transition system: `thread_alive`
holds while the loop thread has not yet exited its `while`; a tick may
fire (also mid-stop, for an in-flight iteration) only while the thread
is alive; the thread exits only after observing `running = False`. -/

/-- Combined state of the simulator and its scheduler thread. -/
structure SchedState where
  sim : SimState
  running : Bool
  thread_alive : Bool

/-- Interleaved steps of the loop thread and of a stopper, excluding a
restart (`start_simulation`). -/
inductive SchedStep (msin : ℚ → ℚ) : SchedState → SchedState → Prop
  | tick (s : SchedState) (o : TickOracle) (h : s.thread_alive = true) :
      SchedStep msin s { s with sim := generate_tick_data msin o s.sim }
  | loop_exit (s : SchedState) (h : s.thread_alive = true) (hr : s.running = false) :
      SchedStep msin s { s with thread_alive := false }
  | stop_signal (s : SchedState) :
      SchedStep msin s { s with running := false }

/-! ## The SSE streaming generator (`portfolio/sse.py`, `portfolio/api.py`) -/

/-- A primitive JSON value appearing in the streamed document. -/
inductive JVal where
  | str : String → JVal
  | num : ℚ → JVal
deriving DecidableEq, Repr

/-- `json.dumps` of a flat object of strings and numbers, with the
default `", "` / `": "` separators.  `numFmt` is the (uninterpreted)
float repr. -/
def dumps_flat (numFmt : ℚ → String) (l : List (String × JVal)) : String :=
  let item : String × JVal → String := fun kv =>
    "\"" ++ kv.1 ++ "\": " ++
      (match kv.2 with
        | .str v => "\"" ++ v ++ "\""
        | .num q => numFmt q)
  "\x7b" ++ String.intercalate ", " (l.map item) ++ "\x7d"

/-- The `data` dict built on the success path of `portfolio_sse_stream`
(`sse.py` lines 25-30). -/
def portfolio_update_message (ts : String) (total_value_usd change_24h : ℚ) :
    List (String × JVal) :=
  [("type", .str "portfolio-update"),
   ("timestamp", .str ts),
   ("total_value_usd", .num total_value_usd),
   ("change_24h", .num change_24h)]

/-- The `time.sleep(0.1)` after each successful message (`sse.py` line 35),
in seconds. -/
def sse_success_sleep : ℚ := 0.1

/-- The `time.sleep(5)` after an error message (`sse.py` line 50), in
seconds. -/
def sse_error_sleep : ℚ := 5

/-- The `f"data: {data}\n\n"` framing applied by `event_stream` in
`portfolio/api.py` (line 287) to each value yielded by the generator. -/
def event_stream_frame (payload : String) : String := "data: " ++ payload ++ "\n\n"

/-- One success-path iteration of the `while True` loop of
`portfolio_sse_stream`: the framed message sent to the client and the
sleep that follows it.  `ts` is `timezone.now().isoformat()`,
`total_value_usd` / `change_24h` come from
`PortfolioService.get_portfolio_summary()`. -/
def portfolio_sse_iteration (numFmt : ℚ → String) (ts : String)
    (total_value_usd change_24h : ℚ) : String × ℚ :=
  (event_stream_frame (dumps_flat numFmt (portfolio_update_message ts total_value_usd change_24h)),
   sse_success_sleep)

/-- The whole (success-path) stream for one connected viewer: iteration
`n` uses the `n`-th clock reading and portfolio summary.  The loop is
`while True` - there is one frame for every `n : ℕ`, until the client
disconnects. -/
def portfolio_sse_stream (numFmt : ℚ → String) (clock : ℕ → String)
    (summary : ℕ → ℚ × ℚ) (n : ℕ) : String × ℚ :=
  portfolio_sse_iteration numFmt (clock n) (summary n).1 (summary n).2

/-- The top-level field names of the polling document returned by
`get_current_data` (lines 286-300). -/
def snapshot_doc_keys : List String :=
  ["success", "timeframe", "labels", "multi_chain_data", "summary",
   "recent_events", "simulation_time"]

instance (o : TickOracle) : Decidable o.Valid := by
  unfold TickOracle.Valid; infer_instance

/-- A concrete model of the float sine used in witnesses. -/
def m0 : ℚ → ℚ := fun _ => 0

/-- The bound invariant of the two histories and the event log. -/
def BoundsInv (s : SimState) : Prop :=
  (∀ c, (s.balance_history c).length ≤ 200 ∧ (s.volume_history c).length ≤ 200) ∧
    s.transaction_events.length ≤ 50

/-- A concrete tick oracle whose gaussian draw is `-1` for every chain
(so every computed balance is exactly zero) and whose fraud roll fails. -/
def zeroGaussOracle : TickOracle :=
  { chain := fun _ =>
      { gauss := -1, mixing_active := false, bridge_active := false,
        mixing_gain := 1.2, bridge_loss := 0.9, bridge_gain := 1.1,
        vol_fraud_active := false, vol_fraud_mult := 3, vol_rand := 1 }
    fraud_roll := false
    event := { type_index := 0, chain_index := 0, amount := 10000, score := 7/10 } }

/-- The simulator after two ticks driven by `zeroGaussOracle`: every
stored balance sample is zero. -/
def stateTwoTicks : SimState :=
  generate_tick_data m0 zeroGaussOracle (generate_tick_data m0 zeroGaussOracle (initState 0))

/-- A concrete tick oracle whose fraud roll succeeds and whose
`random.choice` picks the fifth event type. -/
def fraudTickOracle : TickOracle :=
  { chain := fun _ =>
      { gauss := 0, mixing_active := false, bridge_active := false,
        mixing_gain := 1.2, bridge_loss := 0.9, bridge_gain := 1.1,
        vol_fraud_active := false, vol_fraud_mult := 3, vol_rand := 1 }
    fraud_roll := true
    event := { type_index := 4, chain_index := 0, amount := 10000, score := 7/10 } }

/-- The simulator after one tick driven by `fraudTickOracle`: its event
log holds exactly one fraud event of the fifth type. -/
def fraudState : SimState := generate_tick_data m0 fraudTickOracle (initState 0)

/-- A scheduler state after `stop_simulation` has returned: the loop
thread has terminated. -/
def stoppedState : SchedState :=
  { sim := initState 0, running := false, thread_alive := false }

/-- The five-element event-type catalogue named by the specification
(its fifth element differs from the one in the code). -/
def spec_event_catalogue : List String :=
  ["large_transfer", "mixing_service", "bridge_transaction",
   "tumbler_activity", "structuring"]

/-! ## Helper lemmas -/

lemma appendBounded_eq (bound : ℕ) (l : List α) (x : α) (hb : 0 < bound) :
    appendBounded bound l x = (if bound ≤ l.length then l.tail else l) ++ [x] := by
  unfold appendBounded
  simp only [List.length_append, List.length_singleton]
  by_cases h : bound < l.length + 1
  · have hle : bound ≤ l.length := Nat.lt_succ_iff.mp h
    simp only [if_pos h, if_pos hle]
    cases l with
    | nil => simp at hle; omega
    | cons a t => simp
  · have hgt : ¬ bound ≤ l.length := by omega
    simp [if_neg h, if_neg hgt]

lemma appendBounded_length_le (bound : ℕ) (l : List α) (x : α)
    (hb : 0 < bound) (h : l.length ≤ bound) :
    (appendBounded bound l x).length ≤ bound := by
  rw [appendBounded_eq bound l x hb]
  by_cases hle : bound ≤ l.length
  · simp only [if_pos hle, List.length_append, List.length_singleton, List.length_tail]
    omega
  · simp only [if_neg hle, List.length_append, List.length_singleton]
    omega

lemma mem_appendBounded {bound : ℕ} {l : List α} {x y : α}
    (h : y ∈ appendBounded bound l x) : y ∈ l ∨ y = x := by
  unfold appendBounded at h
  simp only at h
  by_cases hc : bound < (l ++ [x]).length
  · rw [if_pos hc] at h
    rcases List.mem_append.mp (List.mem_of_mem_tail h) with h1 | h2
    · exact Or.inl h1
    · exact Or.inr (List.mem_singleton.mp h2)
  · rw [if_neg hc] at h
    rcases List.mem_append.mp h with h1 | h2
    · exact Or.inl h1
    · exact Or.inr (List.mem_singleton.mp h2)

lemma getLast?_appendBounded (bound : ℕ) (l : List α) (x : α) (hb : 0 < bound) :
    (appendBounded bound l x).getLast? = some x := by
  rw [appendBounded_eq bound l x hb]
  by_cases hle : bound ≤ l.length
  · rw [if_pos hle, List.getLast?_append_of_ne_nil] <;> simp
  · rw [if_neg hle, List.getLast?_append_of_ne_nil] <;> simp

/-- Induction principle for reachable simulator states. -/
lemma reachable_invariant (msin : ℚ → ℚ) (P : SimState → Prop)
    (hinit : ∀ t0 : ℤ, P (initState t0))
    (hstep : ∀ s o, TickOracle.Valid o → P s → P (generate_tick_data msin o s)) :
    ∀ s, Reachable msin s → P s := by
  rintro s ⟨t0, h⟩
  induction h with
  | refl => exact hinit t0
  | tail _ hstep1 ih =>
    obtain ⟨o, hv, rfl⟩ := hstep1
    exact hstep _ o hv ih

lemma length_sliceLast (n : ℕ) (l : List α) :
    (sliceLast n l).length = l.length - (l.length - n) := by
  simp [sliceLast]

lemma length_sliceLast_le (n : ℕ) (l : List α) : (sliceLast n l).length ≤ n := by
  rw [length_sliceLast]; omega

lemma sliceLast_eq_self {n : ℕ} {l : List α} (h : l.length ≤ n) :
    sliceLast n l = l := by
  unfold sliceLast
  rw [Nat.sub_eq_zero_of_le h, List.drop_zero]

lemma sliceLast_padFront (np : ℕ) (pad : BV) (l : List BV) (h : l.length ≤ np) :
    sliceLast np (padFront np pad l) = padFront np pad l := by
  apply sliceLast_eq_self
  unfold padFront
  simp only [List.length_append, List.length_replicate]
  omega

/-- Full characterization of the per-chain `balances` array: front padding
with the baseline balance, then the most recent samples. -/
lemma chain_series_balances (s : SimState) (np : ℕ) (c : ChainId) :
    (chain_series s np c).balances =
      List.replicate (np - (sliceLast np (s.balance_history c)).length)
          (chains c).base_balance ++
        (sliceLast np (s.balance_history c)).map (fun d => d.balance) := by
  unfold chain_series
  dsimp only
  rw [sliceLast_padFront _ _ _
      (by rw [List.length_map]; exact length_sliceLast_le _ _)]
  unfold padFront
  simp [List.map_append, List.map_replicate, List.map_map, List.length_map,
    Function.comp, bvOf]

/-- Full characterization of the per-chain `volume` array: front padding
with zero, then the most recent samples. -/
lemma chain_series_volume (s : SimState) (np : ℕ) (c : ChainId) :
    (chain_series s np c).volume =
      List.replicate (np - (sliceLast np (s.volume_history c)).length) 0 ++
        (sliceLast np (s.volume_history c)).map (fun d => d.volume) := by
  unfold chain_series
  dsimp only
  rw [sliceLast_padFront _ _ _
      (by rw [List.length_map]; exact length_sliceLast_le _ _)]
  unfold padFront
  simp [List.map_append, List.map_replicate, List.map_map, List.length_map,
    Function.comp, bvOf]

lemma chain_series_balances_length (s : SimState) (np : ℕ) (c : ChainId) :
    (chain_series s np c).balances.length = np := by
  rw [chain_series_balances]
  simp only [List.length_append, List.length_replicate, List.length_map]
  have := length_sliceLast_le np (s.balance_history c)
  omega

lemma chain_series_volume_length (s : SimState) (np : ℕ) (c : ChainId) :
    (chain_series s np c).volume.length = np := by
  rw [chain_series_volume]
  simp only [List.length_append, List.length_replicate, List.length_map]
  have := length_sliceLast_le np (s.volume_history c)
  omega

lemma boundsInv_init (t0 : ℤ) : BoundsInv (initState t0) := by
  constructor
  · intro c; simp [initState]
  · simp [initState]

lemma boundsInv_step (msin : ℚ → ℚ) (s : SimState) (o : TickOracle)
    (ih : BoundsInv s) : BoundsInv (generate_tick_data msin o s) := by
  obtain ⟨ihh, ihe⟩ := ih
  constructor
  · intro c
    refine ⟨appendBounded_length_le 200 _ _ (by norm_num) (ihh c).1,
            appendBounded_length_le 200 _ _ (by norm_num) (ihh c).2⟩
  · show (if o.fraud_roll then _ else _ : List FraudEvent).length ≤ 50
    by_cases hf : o.fraud_roll
    · rw [if_pos hf]
      exact appendBounded_length_le 50 _ _ (by norm_num) ihe
    · rw [if_neg hf]
      exact ihe

lemma take_length_append (l₁ l₂ : List α) (n : ℕ) (h : l₁.length = n) :
    (l₁ ++ l₂).take n = l₁ := by
  subst h
  exact List.take_left l₁ l₂

lemma chain_series_balances_take_pad (s : SimState) (np : ℕ) (c : ChainId) :
    (chain_series s np c).balances.take (np - (s.balance_history c).length) =
      List.replicate (np - (s.balance_history c).length) (chains c).base_balance := by
  rw [chain_series_balances]
  have hk : np - (sliceLast np (s.balance_history c)).length =
      np - (s.balance_history c).length := by
    rw [length_sliceLast]; omega
  rw [hk]
  exact take_length_append _ _ _ (List.length_replicate _ _)

lemma chain_series_volume_take_pad (s : SimState) (np : ℕ) (c : ChainId) :
    (chain_series s np c).volume.take (np - (s.volume_history c).length) =
      List.replicate (np - (s.volume_history c).length) 0 := by
  rw [chain_series_volume]
  have hk : np - (sliceLast np (s.volume_history c)).length =
      np - (s.volume_history c).length := by
    rw [length_sliceLast]; omega
  rw [hk]
  exact take_length_append _ _ _ (List.length_replicate _ _)

lemma get_current_data_multi (s : SimState) (tf : String) :
    (get_current_data s tf).multi_chain_data = fun c => chain_series s (points_map tf) c :=
  rfl

/-- Once the loop thread has terminated, no transition of the
stop-protocol transition system revives it or touches the simulator. -/
lemma sched_stopped_invariant (msin : ℚ → ℚ) {s s' : SchedState}
    (h : Relation.ReflTransGen (SchedStep msin) s s')
    (ha : s.thread_alive = false) :
    s'.thread_alive = false ∧ s'.sim = s.sim := by
  induction h with
  | refl => exact ⟨ha, rfl⟩
  | tail _ hstep ih =>
    obtain ⟨iha, ihs⟩ := ih
    cases hstep with
    | tick o h1 => rw [iha] at h1; cases h1
    | loop_exit h1 hr => exact ⟨rfl, ihs⟩
    | stop_signal => exact ⟨iha, ihs⟩

lemma zeroGaussOracle_valid : TickOracle.Valid zeroGaussOracle := by
  unfold TickOracle.Valid EventOracle.Valid zeroGaussOracle
  norm_num

lemma fraudTickOracle_valid : TickOracle.Valid fraudTickOracle := by
  unfold TickOracle.Valid EventOracle.Valid fraudTickOracle
  norm_num

lemma reachable_stateTwoTicks : Reachable m0 stateTwoTicks :=
  ⟨0, Relation.ReflTransGen.tail
      (Relation.ReflTransGen.tail Relation.ReflTransGen.refl
        ⟨zeroGaussOracle, zeroGaussOracle_valid, rfl⟩)
      ⟨zeroGaussOracle, zeroGaussOracle_valid, rfl⟩⟩

lemma reachable_fraudState : Reachable m0 fraudState :=
  ⟨0, Relation.ReflTransGen.tail Relation.ReflTransGen.refl
      ⟨fraudTickOracle, fraudTickOracle_valid, rfl⟩⟩

lemma getD_mem_of_lt (l : List α) (i : ℕ) (d : α) (h : i < l.length) :
    l.getD i d ∈ l := by
  induction l generalizing i with
  | nil => simp at h
  | cons a t ih =>
    cases i with
    | zero => simp
    | succ j =>
      simp only [List.getD_cons_succ]
      exact List.mem_cons_of_mem a (ih j (by simpa using h))

/-- With a gaussian draw of `-1` the random factor is zero, so the
computed balance is exactly zero. -/
lemma calc_balance_zero_gauss (t : ℤ) (c : ChainId) :
    calculate_chain_balance m0 t (chains c) c (zeroGaussOracle.chain c) = 0 := by
  unfold calculate_chain_balance m0 zeroGaussOracle
  norm_num

lemma stateTwoTicks_balance_history (c : ChainId) :
    (stateTwoTicks.balance_history c).map (fun d => d.balance) = [0, 0] := by
  show [calculate_chain_balance m0 (0 + 1000000 * 1) (chains c) c (zeroGaussOracle.chain c),
        calculate_chain_balance m0 (0 + 1000000 * 1 + 1000000 * 1) (chains c) c
          (zeroGaussOracle.chain c)] = [0, 0]
  rw [calc_balance_zero_gauss, calc_balance_zero_gauss]

lemma chain_series_stateTwoTicks_balances (c : ChainId) :
    (chain_series stateTwoTicks 30 c).balances =
      List.replicate 28 (chains c).base_balance ++ [0, 0] := by
  have hl : (stateTwoTicks.balance_history c).length = 2 := by
    have := congrArg List.length (stateTwoTicks_balance_history c)
    simpa using this
  rw [chain_series_balances, sliceLast_eq_self (by rw [hl]; norm_num),
    stateTwoTicks_balance_history c, hl]

lemma prev_balance_stateTwoTicks : previous_balance_of stateTwoTicks "1M" = 0 := by
  unfold previous_balance_of
  have hc : ∀ c, second_last_or (chain_series stateTwoTicks (points_map "1M") c).balances = 0 := by
    intro c
    have hpm : points_map "1M" = 30 := rfl
    rw [hpm, chain_series_stateTwoTicks_balances c]
    unfold second_last_or last_or_zero
    have h28 : (List.replicate 28 (chains c).base_balance ++ ([0, 0] : List ℚ)).length - 2 = 28 := by
      simp
    rw [if_pos (by simp), h28, List.getD_append_right _ _ _ _ (by simp)]
    simp
  simp only [chain_keys, List.map_cons, List.map_nil, hc, List.sum_cons, List.sum_nil]
  norm_num

/-! ## Claim theorems -/

/-- C1: at every reachable state of the simulator, every chain's balance
history and volume history hold at most 200 samples and the fraud-event
log holds at most 50 entries; moreover every tick inserts by appending at
the back of the relevant sequence, and exactly the front (oldest) element
is removed whenever the bound would otherwise be exceeded. -/
theorem C1_bounded_histories (msin : ℚ → ℚ) (s : SimState) (h : Reachable msin s) :
    BoundsInv s ∧
      ∀ o : TickOracle,
        (∃ dp : ChainId → DataPoint, ∀ c,
          (generate_tick_data msin o s).balance_history c =
            (if 200 ≤ (s.balance_history c).length then (s.balance_history c).tail
              else s.balance_history c) ++ [dp c] ∧
          (generate_tick_data msin o s).volume_history c =
            (if 200 ≤ (s.volume_history c).length then (s.volume_history c).tail
              else s.volume_history c) ++ [dp c]) ∧
        (generate_tick_data msin o s).transaction_events =
          (if o.fraud_roll then
            (if 50 ≤ s.transaction_events.length then s.transaction_events.tail
              else s.transaction_events) ++
              [generate_fraud_event (s.current_time + 1000000 * s.simulation_speed) o.event]
            else s.transaction_events) := by
  constructor
  · exact reachable_invariant msin BoundsInv boundsInv_init
      (fun s o _ ih => boundsInv_step msin s o ih) s h
  · intro o
    constructor
    · refine ⟨fun c =>
        { timestamp := s.current_time + 1000000 * s.simulation_speed
          balance := calculate_chain_balance msin
            (s.current_time + 1000000 * s.simulation_speed) (chains c) c (o.chain c)
          volume := calculate_chain_volume (chains c) (o.chain c)
          chain := c }, fun c => ?_⟩
      constructor
      · exact appendBounded_eq 200 _ _ (by norm_num)
      · exact appendBounded_eq 200 _ _ (by norm_num)
    · show (if o.fraud_roll then _ else _ : List FraudEvent) = _
      by_cases hf : o.fraud_roll
      · rw [if_pos hf, if_pos hf]
        exact appendBounded_eq 50 _ _ (by norm_num)
      · rw [if_neg hf, if_neg hf]

/-- Witness for C1 at the freshly constructed simulator. -/
theorem C1_bounded_histories_witness :
    Reachable (fun _ => 0) (initState 0) ∧
    (BoundsInv (initState 0) ∧
      ∀ o : TickOracle,
        (∃ dp : ChainId → DataPoint, ∀ c,
          (generate_tick_data (fun _ => 0) o (initState 0)).balance_history c =
            (if 200 ≤ ((initState 0).balance_history c).length
              then ((initState 0).balance_history c).tail
              else (initState 0).balance_history c) ++ [dp c] ∧
          (generate_tick_data (fun _ => 0) o (initState 0)).volume_history c =
            (if 200 ≤ ((initState 0).volume_history c).length
              then ((initState 0).volume_history c).tail
              else (initState 0).volume_history c) ++ [dp c]) ∧
        (generate_tick_data (fun _ => 0) o (initState 0)).transaction_events =
          (if o.fraud_roll then
            (if 50 ≤ (initState 0).transaction_events.length
              then (initState 0).transaction_events.tail
              else (initState 0).transaction_events) ++
              [generate_fraud_event ((initState 0).current_time +
                  1000000 * (initState 0).simulation_speed) o.event]
            else (initState 0).transaction_events)) :=
  ⟨⟨0, Relation.ReflTransGen.refl⟩,
    C1_bounded_histories (fun _ => 0) (initState 0) ⟨0, Relation.ReflTransGen.refl⟩⟩

/-- C2: at every reachable state (hence after every tick), every balance
sample stored in any chain's balance history is nonnegative, because
`_calculate_chain_balance` clamps its result to a minimum of zero before
the sample is appended. -/
theorem C2_balance_nonneg (msin : ℚ → ℚ) (s : SimState) (h : Reachable msin s) :
    (∀ c, ∀ dp ∈ s.balance_history c, 0 ≤ dp.balance) ∧
      ∀ (t : ℤ) (config : ChainConfig) (c : ChainId) (o : ChainOracle),
        0 ≤ calculate_chain_balance msin t config c o := by
  have hclamp : ∀ (t : ℤ) (config : ChainConfig) (c : ChainId) (o : ChainOracle),
      0 ≤ calculate_chain_balance msin t config c o := by
    intro t config c o
    unfold calculate_chain_balance
    exact le_max_right _ _
  refine ⟨?_, hclamp⟩
  refine reachable_invariant msin
    (fun s => ∀ c, ∀ dp ∈ s.balance_history c, 0 ≤ dp.balance)
    (fun t0 => by simp [initState]) ?_ s h
  intro s o _ ih c dp hdp
  rcases mem_appendBounded hdp with hmem | rfl
  · exact ih c dp hmem
  · exact hclamp _ _ _ _

/-- C3: for each window token of the fixed enumeration (`1M` ↦ 30,
`5M` ↦ 60, `30M` ↦ 90 points) and every reachable simulator state, the
snapshot returns exactly `N` balance values and exactly `N` volume values
per chain; when a chain's history holds fewer than `N` samples, the
missing leading positions hold the chain's baseline balance in the
balances array and zero in the volume array. -/
theorem C3_snapshot_point_counts (msin : ℚ → ℚ) (s : SimState)
    (h : Reachable msin s) :
    ∀ (tf : String) (N : ℕ),
      (tf = "1M" ∧ N = 30) ∨ (tf = "5M" ∧ N = 60) ∨ (tf = "30M" ∧ N = 90) →
      ∀ c : ChainId,
        ((get_current_data s tf).multi_chain_data c).balances.length = N ∧
        ((get_current_data s tf).multi_chain_data c).volume.length = N ∧
        ((get_current_data s tf).multi_chain_data c).balances.take
            (N - (s.balance_history c).length) =
          List.replicate (N - (s.balance_history c).length) (chains c).base_balance ∧
        ((get_current_data s tf).multi_chain_data c).volume.take
            (N - (s.volume_history c).length) =
          List.replicate (N - (s.volume_history c).length) 0 := by
  intro tf N htf c
  have hnp : points_map tf = N := by
    rcases htf with ⟨rfl, rfl⟩ | ⟨rfl, rfl⟩ | ⟨rfl, rfl⟩ <;> rfl
  rw [get_current_data_multi, hnp]
  exact ⟨chain_series_balances_length s N c, chain_series_volume_length s N c,
    chain_series_balances_take_pad s N c, chain_series_volume_take_pad s N c⟩

/-- Witness for C3 at the freshly constructed simulator with the `1M`
window: all 30 positions are padding. -/
theorem C3_snapshot_point_counts_witness :
    Reachable (fun _ => 0) (initState 0) ∧
    (("1M" = "1M" ∧ 30 = 30) ∨ ("1M" = "5M" ∧ 30 = 60) ∨ ("1M" = "30M" ∧ 30 = 90)) ∧
    ∀ c : ChainId,
      ((get_current_data (initState 0) "1M").multi_chain_data c).balances.length = 30 ∧
      ((get_current_data (initState 0) "1M").multi_chain_data c).volume.length = 30 ∧
      ((get_current_data (initState 0) "1M").multi_chain_data c).balances.take
          (30 - ((initState 0).balance_history c).length) =
        List.replicate (30 - ((initState 0).balance_history c).length)
          (chains c).base_balance ∧
      ((get_current_data (initState 0) "1M").multi_chain_data c).volume.take
          (30 - ((initState 0).volume_history c).length) =
        List.replicate (30 - ((initState 0).volume_history c).length) 0 :=
  ⟨⟨0, Relation.ReflTransGen.refl⟩, Or.inl ⟨rfl, rfl⟩,
    C3_snapshot_point_counts (fun _ => 0) (initState 0) ⟨0, Relation.ReflTransGen.refl⟩
      "1M" 30 (Or.inl ⟨rfl, rfl⟩)⟩

/-- C10: for the `30M` window the snapshot carries exactly 30 label
strings while each per-chain balances and volume array carries 90
entries (labels shorter than data); for `1M` and `5M` the label count
equals the point count (30 resp. 60). -/
theorem C10_label_point_mismatch (s : SimState) :
    ((get_current_data s "30M").labels.length = 30 ∧
      ∀ c : ChainId,
        ((get_current_data s "30M").multi_chain_data c).balances.length = 90 ∧
        ((get_current_data s "30M").multi_chain_data c).volume.length = 90 ∧
        (get_current_data s "30M").labels.length <
          ((get_current_data s "30M").multi_chain_data c).balances.length) ∧
    ((get_current_data s "1M").labels.length = 30 ∧
      ∀ c : ChainId,
        ((get_current_data s "1M").multi_chain_data c).balances.length = 30) ∧
    ((get_current_data s "5M").labels.length = 60 ∧
      ∀ c : ChainId,
        ((get_current_data s "5M").multi_chain_data c).balances.length = 60) := by
  have h30 : (get_current_data s "30M").labels.length = 30 := by
    show (labels_for "30M" (points_map "30M")).length = 30
    rfl
  have h1 : (get_current_data s "1M").labels.length = 30 := by
    show (labels_for "1M" (points_map "1M")).length = 30
    rfl
  have h5 : (get_current_data s "5M").labels.length = 60 := by
    show (labels_for "5M" (points_map "5M")).length = 60
    rfl
  refine ⟨⟨h30, fun c => ?_⟩, ⟨h1, fun c => ?_⟩, ⟨h5, fun c => ?_⟩⟩
  · rw [get_current_data_multi, h30]
    have hb := chain_series_balances_length s (points_map "30M") c
    have hv := chain_series_volume_length s (points_map "30M") c
    exact ⟨hb, hv, by rw [hb]; decide⟩
  · rw [get_current_data_multi]
    exact chain_series_balances_length s (points_map "1M") c
  · rw [get_current_data_multi]
    exact chain_series_balances_length s (points_map "5M") c

/-- C4: once `stop_simulation` has returned (the loop thread has been
joined, `thread_alive = false`), no further tick executes short of a
restart: along any subsequent steps of the stop protocol the simulator
state is unchanged, so a snapshot taken later is identical to one taken
immediately after `stop_simulation` returned. -/
theorem C4_stop_freezes_state (msin : ℚ → ℚ) (s s' : SchedState)
    (hstop : s.thread_alive = false)
    (h : Relation.ReflTransGen (SchedStep msin) s s') :
    s'.sim = s.sim ∧
      ∀ tf, get_current_data s'.sim tf = get_current_data s.sim tf := by
  obtain ⟨_, hsim⟩ := sched_stopped_invariant msin h hstop
  exact ⟨hsim, fun tf => by rw [hsim]⟩

/-- Witness for C4 at a concrete stopped scheduler state. -/
theorem C4_stop_freezes_state_witness :
    stoppedState.thread_alive = false ∧
    (stoppedState.sim = stoppedState.sim ∧
      ∀ tf, get_current_data stoppedState.sim tf = get_current_data stoppedState.sim tf) :=
  ⟨rfl, C4_stop_freezes_state m0 stoppedState stoppedState rfl Relation.ReflTransGen.refl⟩

/-- C5: for every reachable state and window token, the
`change_percent` computation never raises a division error (the division
is guarded by `previous_balance > 0`), and the percentage-change field is
exactly zero whenever the previous total balance is zero. -/
theorem C5_change_percent_guard (msin : ℚ → ℚ) (s : SimState)
    (h : Reachable msin s) (tf : String) :
    (∃ r : ℚ, change_percent_checked s tf = Except.ok r) ∧
    (previous_balance_of s tf = 0 →
      change_percent_checked s tf = Except.ok 0 ∧
      (get_current_data s tf).summary.change_percent = 0) := by
  constructor
  · unfold change_percent_checked
    by_cases hp : 0 < previous_balance_of s tf
    · rw [if_pos hp]
      unfold pyDiv
      rw [if_neg (ne_of_gt hp)]
      exact ⟨_, rfl⟩
    · rw [if_neg hp]
      exact ⟨0, rfl⟩
  · intro h0
    have hnp : ¬ 0 < previous_balance_of s tf := by rw [h0]; exact lt_irrefl 0
    constructor
    · unfold change_percent_checked
      rw [if_neg hnp]
    · show change_percent_of s tf = 0
      unfold change_percent_of
      rw [if_neg hnp]

/-- Witness for C5 at the concrete two-tick state whose stored balances
are all zero, so that the previous total balance is zero. -/
theorem C5_change_percent_guard_witness :
    Reachable m0 stateTwoTicks ∧
    previous_balance_of stateTwoTicks "1M" = 0 ∧
    (∃ r : ℚ, change_percent_checked stateTwoTicks "1M" = Except.ok r) ∧
    (change_percent_checked stateTwoTicks "1M" = Except.ok 0 ∧
      (get_current_data stateTwoTicks "1M").summary.change_percent = 0) :=
  ⟨reachable_stateTwoTicks, prev_balance_stateTwoTicks,
    (C5_change_percent_guard m0 stateTwoTicks reachable_stateTwoTicks "1M").1,
    (C5_change_percent_guard m0 stateTwoTicks reachable_stateTwoTicks "1M").2
      prev_balance_stateTwoTicks⟩

/-- C6: the balance sample appended for a chain by one tick is exactly
`max(0, baseline * (1 + trend*s/3600) * (1 + g) * f * (1 + sin(s*0.1)*0.05))`,
where `g` is the gaussian draw, `f` the fraud factor and `s` the
sub-minute elapsed-seconds value of the (advanced) simulated time. -/
theorem C6_balance_formula (msin : ℚ → ℚ) (s : SimState) (o : TickOracle) (c : ChainId) :
    ∃ dp : DataPoint,
      ((generate_tick_data msin o s).balance_history c).getLast? = some dp ∧
      dp.balance =
        max 0 ((chains c).base_balance *
          (1 + (chains c).trend *
            seconds_elapsed_of (s.current_time + 1000000 * s.simulation_speed) / 3600) *
          (1 + (o.chain c).gauss) *
          get_fraud_influence c (o.chain c) *
          (1 + msin (seconds_elapsed_of (s.current_time + 1000000 * s.simulation_speed) * 0.1)
            * 0.05)) := by
  refine ⟨_, getLast?_appendBounded 200 _ _ (by norm_num), ?_⟩
  show calculate_chain_balance msin (s.current_time + 1000000 * s.simulation_speed)
      (chains c) c (o.chain c) = _
  unfold calculate_chain_balance
  rw [max_comm]

/-- C7 (counterexample): the claim's catalogue ends in `structuring`,
but the code's fifth event type is `multiple_small_transfers`: a valid
draw selecting index 4 appends to a reachable state's log an event whose
type is outside the claimed catalogue. -/
theorem C7_catalogue_counterexample :
    TickOracle.Valid fraudTickOracle ∧
    fraudState.transaction_events.map (fun e => e.type) = ["multiple_small_transfers"] ∧
    "multiple_small_transfers" ∉ spec_event_catalogue :=
  ⟨fraudTickOracle_valid, rfl, by decide⟩

/-- C7 (amended): every entry ever appended to the fraud-event log has
its type drawn from the code's five-element catalogue `large_transfer`,
`mixing_service`, `bridge_transaction`, `tumbler_activity`,
`multiple_small_transfers`; its amount lies in `[10000, 500000]`, its
severity in `[0.7, 1.0]`, and its description is the canned text looked
up by its event type. -/
theorem C7_fraud_event_wellformed (msin : ℚ → ℚ) (s : SimState) (h : Reachable msin s) :
    ∀ e ∈ s.transaction_events,
      e.type ∈ event_types ∧
      10000 ≤ e.amount ∧ e.amount ≤ 500000 ∧
      7/10 ≤ e.suspicious_score ∧ e.suspicious_score ≤ 1 ∧
      e.description = get_event_description e.type := by
  refine reachable_invariant msin
    (fun st => ∀ e ∈ st.transaction_events,
      e.type ∈ event_types ∧
      10000 ≤ e.amount ∧ e.amount ≤ 500000 ∧
      7/10 ≤ e.suspicious_score ∧ e.suspicious_score ≤ 1 ∧
      e.description = get_event_description e.type)
    (fun t0 => by simp [initState]) ?_ s h
  intro s o hv ih e he
  by_cases hf : o.fraud_roll
  · have he' : e ∈ appendBounded 50 s.transaction_events
        (generate_fraud_event (s.current_time + 1000000 * s.simulation_speed) o.event) := by
      simpa [generate_tick_data, hf] using he
    rcases mem_appendBounded he' with hmem | rfl
    · exact ih e hmem
    · obtain ⟨ht, hc, ha1, ha2, hs1, hs2⟩ := hv
      refine ⟨?_, ha1, ha2, hs1, hs2, rfl⟩
      exact getD_mem_of_lt _ _ _ (by simpa [event_types] using ht)
  · have he' : e ∈ s.transaction_events := by
      simpa [generate_tick_data, hf] using he
    exact ih e he'

/-- Witness for the amended C7 at the concrete one-tick state whose
event log holds one event. -/
theorem C7_fraud_event_wellformed_witness :
    Reachable m0 fraudState ∧
    ∀ e ∈ fraudState.transaction_events,
      e.type ∈ event_types ∧
      10000 ≤ e.amount ∧ e.amount ≤ 500000 ∧
      7/10 ≤ e.suspicious_score ∧ e.suspicious_score ≤ 1 ∧
      e.description = get_event_description e.type :=
  ⟨reachable_fraudState, C7_fraud_event_wellformed m0 fraudState reachable_fraudState⟩

/-- C8 (counterexample): the streamed JSON document does not have the
polling endpoint's shape (its keys are `type, timestamp,
total_value_usd, change_24h`), and the inter-message sleep is 0.1
seconds, not 2. -/
theorem C8_stream_counterexample :
    (portfolio_update_message "2026-01-01T00:00:00" 0 0).map Prod.fst ≠ snapshot_doc_keys ∧
    sse_success_sleep ≠ 2 := by
  constructor
  · decide
  · unfold sse_success_sleep
    norm_num

/-- C8 (amended): for every viewer connection, every emitted message is a
`data: <JSON>\n\n` frame whose JSON document is the portfolio-update
object with keys `type, timestamp, total_value_usd, change_24h`, and one
such message is emitted per loop iteration - with a 0.1-second sleep
between messages - for every iteration index, until the client
disconnects. -/
theorem C8_stream_frames (numFmt : ℚ → String) (clock : ℕ → String)
    (summary : ℕ → ℚ × ℚ) (n : ℕ) :
    (portfolio_sse_stream numFmt clock summary n).1 =
      "data: " ++
        dumps_flat numFmt (portfolio_update_message (clock n) (summary n).1 (summary n).2) ++
        "\n\n" ∧
    (portfolio_update_message (clock n) (summary n).1 (summary n).2).map Prod.fst =
      ["type", "timestamp", "total_value_usd", "change_24h"] ∧
    (portfolio_sse_stream numFmt clock summary n).2 = sse_success_sleep ∧
    sse_success_sleep = 0.1 :=
  ⟨rfl, rfl, rfl, rfl⟩

/-- C9: computing a snapshot does not mutate the simulator: the method
in state-passing form returns the state it was given - histories, event
log and simulated time included - alongside the read-only snapshot. -/
theorem C9_snapshot_pure (s : SimState) (tf : String) :
    (get_current_data_st s tf).1 = s ∧
    (get_current_data_st s tf).1.balance_history = s.balance_history ∧
    (get_current_data_st s tf).1.volume_history = s.volume_history ∧
    (get_current_data_st s tf).1.transaction_events = s.transaction_events ∧
    (get_current_data_st s tf).1.current_time = s.current_time ∧
    (get_current_data_st s tf).2 = get_current_data s tf :=
  ⟨rfl, rfl, rfl, rfl, rfl, rfl⟩

/-- Witness for C2 at the freshly constructed simulator. -/
theorem C2_balance_nonneg_witness :
    Reachable (fun _ => 0) (initState 0) ∧
    ((∀ c, ∀ dp ∈ (initState 0).balance_history c, 0 ≤ dp.balance) ∧
      ∀ (t : ℤ) (config : ChainConfig) (c : ChainId) (o : ChainOracle),
        0 ≤ calculate_chain_balance (fun _ => 0) t config c o) :=
  ⟨⟨0, Relation.ReflTransGen.refl⟩,
    C2_balance_nonneg (fun _ => 0) (initState 0) ⟨0, Relation.ReflTransGen.refl⟩⟩

end Sim
